import Mathlib

/-!
Verification development for the MathMind presentation-assembly pipeline.

The definitions below are a shallow embedding of the presentation flow
implemented in `handlePresentationFlow` (App component) and of the image
service `generateSlideImage` (`services/geminiService.ts`):

* geometry constants and the element/slide/deck model mirror the
  `pptxgenjs` calls made while building the deck;
* `sanitizedBaseName` mirrors the export file-name computation
  `title.replace(/[^a-z0-9]/gi, '_').toLowerCase()`;
* `jsParseInt` models ECMAScript `parseInt` on the inputs relevant to the
  slide-count step, and `handleCountInput` mirrors the COUNT-step guard;
* `fetchImages` mirrors the sequential illustration-fetch loop, with the
  remote service abstracted as an oracle of per-slide call outcomes.

Numeric layout values are embedded as rationals, which represent the
JavaScript number values exactly (all constants involved are small
decimal fractions).
-/

namespace MathMind

/-! ## Input data model (`PresentationData` from `types.ts`) -/

/-- One slide record of `PresentationData` as returned by
`generatePresentationContent`. -/
structure SlideData where
  title : String
  bullets : List String
  examples : List String
  imageDescription : String
  speakerNotes : String
deriving DecidableEq, Repr

/-- The structured content description returned by the generation step. -/
structure PresentationData where
  title : String
  slides : List SlideData
deriving DecidableEq, Repr

/-- A slide record after the illustration-fetch loop
(`slidesWithImages.push({ ...slide, imageBase64 })`). -/
structure SlideWithImage extends SlideData where
  imageBase64 : Option String
deriving DecidableEq, Repr

/-! ## Output element model (the `pptxgenjs` calls) -/

/-- A width specification: `pptxgenjs` accepts inches or a percent string. -/
inductive Dim where
  | abs (v : ℚ)
  | pct (v : ℚ)
deriving DecidableEq, Repr

/-- Horizontal alignment option. -/
inductive Align where
  | left
  | center
  | right
deriving DecidableEq, Repr

/-- Vertical alignment option. -/
inductive VAlign where
  | top
  | middle
  | bottom
deriving DecidableEq, Repr

/-- Bullet option of a text run: absent, plain bullet, or numbered. -/
inductive BulletSetting where
  | off
  | plain
  | numbered
deriving DecidableEq, Repr

/-- Image sizing kind (only `contain` is used by the source). -/
inductive SizingType where
  | contain
deriving DecidableEq, Repr

/-- The `sizing` option of `addImage`. -/
structure Sizing where
  type : SizingType
  w : ℚ
  h : ℚ
deriving DecidableEq, Repr

/-- Shape kind (only `rect` is used by the source). -/
inductive ShapeKind where
  | rect
deriving DecidableEq, Repr

/-- One run of an `addText` array argument together with its run options. -/
structure TextRun where
  text : String
  fontSize : Option ℚ := none
  color : Option String := none
  bold : Bool := false
  breakLine : Bool := false
  bullet : BulletSetting := .off
  inset : Option ℚ := none
  rtl : Bool := false
  align : Option Align := none
deriving DecidableEq, Repr

/-- The content payload of a slide element. -/
inductive ElemContent where
  | text (runs : List TextRun)
  | image (data : String) (sizing : Option Sizing)
  | shape (kind : ShapeKind) (fill : Option String)
deriving DecidableEq, Repr

/-- A positioned slide element: content plus the element-level options of
the corresponding `addText` / `addImage` / `addShape` call. -/
structure Element where
  content : ElemContent
  x : ℚ
  y : ℚ
  w : Dim
  h : Option ℚ := none
  fontSize : Option ℚ := none
  bold : Bool := false
  color : Option String := none
  align : Option Align := none
  valign : Option VAlign := none
  rtl : Bool := false
  lineSpacing : Option ℚ := none
  shrinkText : Bool := false
deriving DecidableEq, Repr

/-- A built slide: background, elements in insertion order, speaker notes. -/
structure Slide where
  background : Option String
  elements : List Element
  notes : Option String
deriving DecidableEq, Repr

/-- The built deck (`new PptxGenJS()` with `rtlMode` and `layout` set). -/
structure Deck where
  rtlMode : Bool
  layout : String
  slides : List Slide
deriving DecidableEq, Repr

/-- Discriminator for an element's kind. -/
inductive ElemKindTag where
  | text
  | image
  | shape
deriving DecidableEq, Repr

/-- The kind of an element. -/
def elemKind (e : Element) : ElemKindTag :=
  match e.content with
  | .text _ => .text
  | .image _ _ => .image
  | .shape _ _ => .shape

/-- The bounding box of an element as a tuple `(x, y, w, h)`. -/
def elemBox (e : Element) : ℚ × ℚ × Dim × Option ℚ :=
  (e.x, e.y, e.w, e.h)

/-- The texts of the runs of a text element, in order. -/
def runTexts (e : Element) : List String :=
  match e.content with
  | .text runs => runs.map TextRun.text
  | _ => []

/-! ## Layout constants (`handlePresentationFlow`) -/

def SLIDE_WIDTH : ℚ := 10

def SLIDE_HEIGHT : ℚ := 5.625

def MARGIN : ℚ := 0.5

def contentY : ℚ := 1.1

def contentHeight : ℚ := 2.8

def imageWidth : ℚ := 3.2

/-- `SLIDE_WIDTH - (MARGIN * 2) - imageWidth - 0.2` (0.2 gap). -/
def textWidth : ℚ := SLIDE_WIDTH - MARGIN * 2 - imageWidth - 0.2

def textX : ℚ := SLIDE_WIDTH - MARGIN - textWidth

def imageX : ℚ := MARGIN

/-- `contentY + contentHeight + 0.1`. -/
def examplesY : ℚ := contentY + contentHeight + 0.1

/-- `SLIDE_HEIGHT - examplesY - MARGIN`. -/
def examplesHeight : ℚ := SLIDE_HEIGHT - examplesY - MARGIN

/-! ## Element builders (one per `addText`/`addImage`/`addShape` call) -/

/-- A run carrying only its text: the single-string form of `addText`,
whose styling lives entirely in the element-level options. -/
def plainRun (t : String) : TextRun :=
  { text := t }

/-- The content-slide title element (`slide.addText(s.title, ...)`). -/
def slideTitleElem (title : String) : Element :=
  { content := .text [plainRun title]
    x := MARGIN
    y := 0.3
    w := .abs (SLIDE_WIDTH - MARGIN * 2)
    h := some 0.7
    fontSize := some 24
    bold := true
    color := some "4F46E5"
    valign := some .middle
    rtl := true
    align := some .right }

/-- The image-column elements: either the illustration (`slide.addImage`)
or the fallback rectangle plus its caption (`slide.addShape` and
`slide.addText("لا توجد صورة", ...)`). -/
def imageColumnElems (imageBase64 : Option String) : List Element :=
  match imageBase64 with
  | some data =>
      [{ content := .image data (some { type := .contain, w := imageWidth, h := contentHeight })
         x := imageX
         y := contentY
         w := .abs imageWidth
         h := some contentHeight }]
  | none =>
      [{ content := .shape .rect (some "F1F5F9")
         x := imageX
         y := contentY
         w := .abs imageWidth
         h := some contentHeight },
       { content := .text [plainRun "لا توجد صورة"]
         x := imageX
         y := contentY
         w := .abs imageWidth
         h := some contentHeight
         fontSize := some 10
         align := some .center
         color := some "94A3B8" }]

/-- One bullet run (`s.bullets.map(b => ...)`). -/
def bulletRun (b : String) : TextRun :=
  { text := b
    fontSize := some 16
    color := some "334155"
    breakLine := true
    bullet := .plain
    inset := some 5
    rtl := true
    align := some .right }

/-- The bullet-points element (`slide.addText(bullets, ...)`). -/
def bulletsElem (bullets : List String) : Element :=
  { content := .text (bullets.map bulletRun)
    x := textX
    y := contentY
    w := .abs textWidth
    h := some contentHeight
    lineSpacing := some 24
    valign := some .top
    shrinkText := true
    rtl := true
    align := some .right }

/-- The examples label element (`slide.addText("أمثلة:", ...)`). -/
def examplesLabelElem : Element :=
  { content := .text [plainRun "أمثلة:"]
    x := MARGIN
    y := examplesY
    w := .abs textWidth
    h := some 0.3
    fontSize := some 14
    bold := true
    color := some "0F172A"
    rtl := true
    align := some .right }

/-- One example run (`s.examples.map(e => ...)`). -/
def exampleRun (e : String) : TextRun :=
  { text := e
    fontSize := some 14
    color := some "475569"
    bullet := .numbered
    rtl := true
    align := some .right }

/-- The numbered examples-list element (`slide.addText(examples, ...)`). -/
def examplesListElem (examples : List String) : Element :=
  { content := .text (examples.map exampleRun)
    x := MARGIN
    y := examplesY + 0.3
    w := .abs (SLIDE_WIDTH - MARGIN * 2)
    h := some (examplesHeight - 0.3)
    valign := some .top
    shrinkText := true
    rtl := true
    align := some .right }

/-- The examples band: rendered only when
`s.examples && s.examples.length > 0`. -/
def exampleBandElems (examples : List String) : List Element :=
  if examples.length > 0 then [examplesLabelElem, examplesListElem examples]
  else []

/-- One content slide, elements in the source's insertion order:
title, image column, bullets, examples band; notes attached when
`s.speakerNotes` is truthy (non-empty). -/
def buildContentSlide (s : SlideWithImage) : Slide :=
  { background := some "FFFFFF"
    elements :=
      slideTitleElem s.title ::
        (imageColumnElems s.imageBase64 ++
          bulletsElem s.bullets :: exampleBandElems s.examples)
    notes := if s.speakerNotes ≠ "" then some s.speakerNotes else none }

/-- The title slide (`pres.addSlide()` with the two centered texts). -/
def titleSlideOf (title : String) : Slide :=
  { background := some "F1F5F9"
    elements :=
      [{ content := .text [plainRun title]
         x := 0.5
         y := 2.0
         w := .pct 90
         fontSize := some 36
         align := some .center
         color := some "0F172A"
         bold := true
         rtl := true },
       { content := .text [plainRun "تم الإنشاء بواسطة MathMind AI"]
         x := 0.5
         y := 3.5
         w := .pct 90
         fontSize := some 18
         align := some .center
         color := some "475569"
         rtl := true }]
    notes := none }

/-- The whole deck: the title slide followed by one content slide per
fetched slide record, in input order. -/
def buildDeck (title : String) (slides : List SlideWithImage) : Deck :=
  { rtlMode := true
    layout := "LAYOUT_16x9"
    slides := titleSlideOf title :: slides.map buildContentSlide }

/-! ## Export file naming
`const fileName = title.replace(/[^a-z0-9]/gi, '_').toLowerCase() + ".pptx"` -/

/-- Whether a character is matched as alphanumeric by `[a-z0-9]` with the
`i` flag, i.e. an ASCII letter or decimal digit. -/
def isBasicAlphanum (c : Char) : Bool :=
  ('a' ≤ c && c ≤ 'z') || ('A' ≤ c && c ≤ 'Z') || ('0' ≤ c && c ≤ '9')

/-- The per-character action of `replace(/[^a-z0-9]/gi, '_')`. -/
def sanitizeTitleChar (c : Char) : Char :=
  if isBasicAlphanum c then c else '_'

/-- The sanitized base name of the exported file:
`title.replace(/[^a-z0-9]/gi, '_').toLowerCase()`. -/
def sanitizedBaseName (title : String) : String :=
  String.mk ((title.data.map sanitizeTitleChar).map Char.toLower)

/-- The full exported file name (base name plus the `.pptx` suffix). -/
def exportFileName (title : String) : String :=
  sanitizedBaseName title ++ ".pptx"

/-! ## The COUNT step (`parseInt` guard of `handlePresentationFlow`) -/

/-- ECMAScript whitespace skipped by `parseInt` (the characters that can
occur in this chat input). -/
def isJsWhitespaceChar (c : Char) : Bool :=
  c == ' ' || c == '\t' || c == '\n' || c == '\r'

/-- The numeric value, if any, of a character as a digit of the given
radix, following `parseInt`'s digit alphabet `0-9a-zA-Z`. -/
def digitValue? (base : Nat) (c : Char) : Option Nat :=
  let v : Option Nat :=
    if '0' ≤ c && c ≤ '9' then some (c.toNat - '0'.toNat)
    else if 'a' ≤ c && c ≤ 'z' then some (c.toNat - 'a'.toNat + 10)
    else if 'A' ≤ c && c ≤ 'Z' then some (c.toNat - 'A'.toNat + 10)
    else none
  match v with
  | some n => if n < base then some n else none
  | none => none

/-- The value of a digit string in the given radix. -/
def digitsVal (base : Nat) (ds : List Char) : Nat :=
  ds.foldl (fun acc c => acc * base + (digitValue? base c).getD 0) 0

/-- `parseInt`'s digit-consumption phase: take the longest leading run of
radix digits; no digit at all yields `NaN` (here `none`). -/
def jsParseIntDigits (sign : Int) (base : Nat) (cs : List Char) : Option Int :=
  let ds := cs.takeWhile fun c => (digitValue? base c).isSome
  if ds.isEmpty then none
  else some (sign * (digitsVal base ds : Int))

/-- `parseInt`'s radix selection when called without an explicit radix:
a `0x`/`0X` head selects 16, otherwise 10. -/
def jsParseIntBase (sign : Int) (cs : List Char) : Option Int :=
  match cs with
  | c0 :: c1 :: rest =>
      if c0 == '0' && (c1 == 'x' || c1 == 'X') then jsParseIntDigits sign 16 rest
      else jsParseIntDigits sign 10 (c0 :: c1 :: rest)
  | short => jsParseIntDigits sign 10 short

/-- ECMAScript `parseInt(input)` (no radix argument): skip leading
whitespace, read an optional sign, select the radix, consume digits. -/
def jsParseInt (s : String) : Option Int :=
  match s.data.dropWhile isJsWhitespaceChar with
  | [] => none
  | c :: rest =>
      if c == '-' then jsParseIntBase (-1) rest
      else if c == '+' then jsParseIntBase 1 rest
      else jsParseIntBase 1 (c :: rest)

/-- The rejection message of the COUNT step. -/
def rejectCountMessage : String := "الرجاء إدخال رقم صحيح للشرائح (بين 1 و 20)."

/-- Outcome of the COUNT step: either the rejection message is posted and
the flow returns early, or generation proceeds with the parsed count. -/
inductive CountStepResult where
  | rejected (message : String)
  | generate (count : Int)
deriving DecidableEq, Repr

/-- The COUNT-step guard:
`const count = parseInt(input); if (isNaN(count) || count < 1 || count > 20) ...`. -/
def handleCountInput (input : String) : CountStepResult :=
  match jsParseInt input with
  | none => .rejected rejectCountMessage
  | some count =>
      if count < 1 ∨ count > 20 then .rejected rejectCountMessage
      else .generate count

/-! ## Illustration fetch (`generateSlideImage` and the fetch loop) -/

/-- One part of a generation response (`response.candidates[0].content.parts`). -/
inductive ResponsePart where
  | inlineData (data : String)
  | textPart (content : String)
deriving DecidableEq, Repr

/-- Outcome of one remote `generateContent` call: a response with its
parts, or a thrown error carrying a status and a message. -/
inductive ApiOutcome where
  | ok (parts : List ResponsePart)
  | err (status : Nat) (msg : String)
deriving DecidableEq, Repr

/-- Naive substring search, modelling JavaScript `String.includes`. -/
def listContainsSub (sub : List Char) : List Char → Bool
  | [] => sub.isEmpty
  | c :: t => sub.isPrefixOf (c :: t) || listContainsSub sub t

/-- `msg.includes(sub)`. -/
def containsSub (msg sub : String) : Bool :=
  listContainsSub sub.data msg.data

/-- `extractImageFromResponse`: the first part with `inlineData` yields a
data URL, otherwise `null`. -/
def extractImageFromResponse : List ResponsePart → Option String
  | [] => none
  | .inlineData d :: _ => some ("data:image/png;base64," ++ d)
  | .textPart _ :: rest => extractImageFromResponse rest

/-- The condition on which `generateSlideImage` falls back to the
secondary model instead of giving up. -/
def isPermissionFallbackError (status : Nat) (msg : String) : Bool :=
  status == 403 || containsSub msg "PERMISSION_DENIED" || status == 404

/-- `generateSlideImage`, with the two potential remote calls abstracted
as their outcomes: every error path returns `none`, never an error. -/
def generateSlideImage (primary fallback : ApiOutcome) : Option String :=
  match primary with
  | .ok parts => extractImageFromResponse parts
  | .err status msg =>
      if isPermissionFallbackError status msg then
        match fallback with
        | .ok parts => extractImageFromResponse parts
        | .err _ _ => none
      else none

/-- Processing of one slide of the fetch loop: the illustration is
requested only when `slide.imageDescription` is truthy (non-empty);
`oracle i` supplies the outcomes of the primary and fallback calls the
`i`-th fetch would make. -/
def fetchSlideImage (oracle : Nat → ApiOutcome × ApiOutcome) (i : Nat)
    (s : SlideData) : SlideWithImage :=
  if s.imageDescription ≠ "" then
    { toSlideData := s, imageBase64 := generateSlideImage (oracle i).1 (oracle i).2 }
  else
    { toSlideData := s, imageBase64 := none }

/-- The fetch loop body, carrying the index of the next slide. -/
def fetchImagesAux (oracle : Nat → ApiOutcome × ApiOutcome) (i : Nat) :
    List SlideData → List SlideWithImage
  | [] => []
  | s :: rest => fetchSlideImage oracle i s :: fetchImagesAux oracle (i + 1) rest

/-- The sequential illustration-fetch loop
(`for (const slide of data.slides) { ... slidesWithImages.push(...) }`). -/
def fetchImages (slides : List SlideData) (oracle : Nat → ApiOutcome × ApiOutcome) :
    List SlideWithImage :=
  fetchImagesAux oracle 0 slides

/-- The COUNT step followed by the generation pipeline: on a rejected
input the flow returns before any generation, so no deck is built;
otherwise the deck is assembled from the generated content and the
fetched illustrations. -/
def presentationCountStep (input : String) (data : PresentationData)
    (oracle : Nat → ApiOutcome × ApiOutcome) : Option Deck :=
  match handleCountInput input with
  | .rejected _ => none
  | .generate _ => some (buildDeck data.title (fetchImages data.slides oracle))

/-! ## Observation helpers and concrete fixtures -/

/-- Whether an element lies in the examples band (its `y` is at or below
`examplesY`); on content slides this singles out the two example
elements, whose `y` is `examplesY` or `examplesY + 0.3`, from the title
(`y = 0.3`) and content-region elements (`y = contentY`). -/
def isInExamplesBand (e : Element) : Bool :=
  decide (examplesY ≤ e.y)

/-- Whether an element is a text element all of whose runs carry the
numbered-bullet option. -/
def isNumberedList (e : Element) : Bool :=
  match e.content with
  | .text runs => runs.all fun r => r.bullet == BulletSetting.numbered
  | _ => false

/-- A concrete slide record with one example, no illustration. -/
def sampleSlideData : SlideData :=
  { title := "Intro"
    bullets := ["a", "b"]
    examples := ["2+2=4"]
    imageDescription := ""
    speakerNotes := "" }

/-- The same record after the fetch loop (no illustration). -/
def sampleSlide : SlideWithImage :=
  { toSlideData := sampleSlideData, imageBase64 := none }

/-- A concrete slide record with no examples. -/
def noExamplesSlide : SlideWithImage :=
  { title := "Intro"
    bullets := ["a", "b"]
    examples := []
    imageDescription := ""
    speakerNotes := ""
    imageBase64 := none }

/-- A 2000-character string, exercising the overflow-length case. -/
def longSampleText : String :=
  String.mk (List.replicate 2000 'a')

/-- A slide whose single bullet and single example are 2000 characters. -/
def longSlide : SlideWithImage :=
  { title := "T"
    bullets := [longSampleText]
    examples := [longSampleText]
    imageDescription := ""
    speakerNotes := ""
    imageBase64 := none }

/-! ## Helper lemmas -/

theorem take_length_append {α : Type} (l₁ l₂ : List α) :
    (l₁ ++ l₂).take l₁.length = l₁ := by
  induction l₁ with
  | nil => rfl
  | cons a t ih => simp [List.take, ih]

theorem fetchImagesAux_get? (oracle : Nat → ApiOutcome × ApiOutcome)
    (k : Nat) (slides : List SlideData) (i : Nat) :
    (fetchImagesAux oracle k slides).get? i
      = (slides.get? i).map (fetchSlideImage oracle (k + i)) := by
  induction slides generalizing k i with
  | nil => simp [fetchImagesAux]
  | cons s rest ih =>
      cases i with
      | zero => simp [fetchImagesAux]
      | succ n =>
          have h := ih (k + 1) n
          have harith : k + 1 + n = k + (n + 1) := by omega
          rw [harith] at h
          simpa [fetchImagesAux] using h

theorem fetchImagesAux_length (oracle : Nat → ApiOutcome × ApiOutcome)
    (k : Nat) (slides : List SlideData) :
    (fetchImagesAux oracle k slides).length = slides.length := by
  induction slides generalizing k with
  | nil => rfl
  | cons s rest ih => simp [fetchImagesAux, ih]

theorem takeWhile_append_left (p : Char → Bool) (d t : List Char)
    (hd : ∀ x ∈ d, p x = true)
    (ht : ∀ c, t.head? = some c → p c = false) :
    (d ++ t).takeWhile p = d := by
  induction d with
  | nil =>
      cases t with
      | nil => rfl
      | cons c t2 => simp [List.takeWhile_cons, ht c rfl]
  | cons c d2 ih =>
      simp [List.takeWhile_cons, hd c (by simp),
        ih (fun x hx => hd x (by simp [hx]))]

theorem sanitize_all_underscore (l : List Char)
    (h : ∀ c ∈ l, isBasicAlphanum c = false) :
    (l.map sanitizeTitleChar).map Char.toLower = List.replicate l.length '_' := by
  induction l with
  | nil => rfl
  | cons c t ih =>
      have hc : sanitizeTitleChar c = '_' := by
        simp [sanitizeTitleChar, h c (by simp)]
      have hlow : Char.toLower '_' = '_' := by decide
      simp [hc, hlow, List.replicate_succ,
        ih (fun x hx => h x (by simp [hx]))]

/-! ## Claim theorems -/

/-- Claim C1 (placeholder parity): for every slide record assembled into a
content slide, the image-column elements immediately follow the title
element, and their bounding box is `(MARGIN, contentY, imageWidth,
contentHeight)` both when the illustration is present (one image element)
and when it is absent (a placeholder shape plus a caption text element);
only the element kinds differ, never the geometry. -/
theorem placeholder_parity (s : SlideWithImage) (d : String) :
    ((buildContentSlide s).elements.drop 1).take (imageColumnElems s.imageBase64).length
        = imageColumnElems s.imageBase64
    ∧ (imageColumnElems (some d)).map elemBox
        = [(MARGIN, contentY, Dim.abs imageWidth, some contentHeight)]
    ∧ (imageColumnElems none).map elemBox
        = [(MARGIN, contentY, Dim.abs imageWidth, some contentHeight),
           (MARGIN, contentY, Dim.abs imageWidth, some contentHeight)]
    ∧ (imageColumnElems (some d)).map elemKind = [ElemKindTag.image]
    ∧ (imageColumnElems none).map elemKind = [ElemKindTag.shape, ElemKindTag.text] := by
  refine ⟨?_, rfl, rfl, rfl, rfl⟩
  simp only [buildContentSlide, List.drop_succ_cons, List.drop_zero]
  exact take_length_append (imageColumnElems s.imageBase64)
    (bulletsElem s.bullets :: exampleBandElems s.examples)

/-- Claim C2, counterexample: the sanitizer does not remove characters
outside the basic alphanumeric range — it replaces each of them with an
underscore — so the right-to-left-script title "عرض" sanitizes to "___",
not to the empty string the claim asserts. -/
theorem file_name_empty_counterexample :
    sanitizedBaseName "عرض" = "___" ∧ sanitizedBaseName "عرض" ≠ "" := by
  constructor
  · decide
  · decide

/-- Claim C2 as amended: the base name is derived from the deck title by
replacing every character outside the basic alphanumeric range with an
underscore (then lowercasing), so the base name always has the title's
length, and a title consisting only of non-alphanumeric characters yields
an all-underscore base name — empty only when the title itself is empty. -/
theorem file_name_underscore (title : String) :
    (sanitizedBaseName title).data.length = title.data.length
    ∧ ((∀ c ∈ title.data, isBasicAlphanum c = false) →
        sanitizedBaseName title = String.mk (List.replicate title.data.length '_')) := by
  constructor
  · simp [sanitizedBaseName]
  · intro h
    simp only [sanitizedBaseName]
    exact congrArg String.mk (sanitize_all_underscore title.data h)

/-- Witness for `file_name_underscore` at the concrete title "عرض". -/
theorem file_name_underscore_witness :
    (sanitizedBaseName "عرض").data.length = ("عرض" : String).data.length
    ∧ sanitizedBaseName "عرض" = String.mk (List.replicate ("عرض" : String).data.length '_') := by
  have h := file_name_underscore "عرض"
  exact ⟨h.1, h.2 (by decide)⟩

/-- Claim C3 (shrink-to-fit): for every slide record, whatever the bullet
and example strings (any lengths), the bullets element and the examples
list element are built with `shrinkText := true` and carry the full,
untruncated input texts inside their fixed declared bounding boxes; the
bullets element is always part of the built slide, and the examples list
element is whenever `examples` is non-empty. Containment of the rendered
text is the serializer's documented semantics of the `shrinkText` option
the assembler sets. -/
theorem shrink_to_fit_policy (s : SlideWithImage) :
    (bulletsElem s.bullets).shrinkText = true
    ∧ runTexts (bulletsElem s.bullets) = s.bullets
    ∧ elemBox (bulletsElem s.bullets)
        = (textX, contentY, Dim.abs textWidth, some contentHeight)
    ∧ bulletsElem s.bullets ∈ (buildContentSlide s).elements
    ∧ (examplesListElem s.examples).shrinkText = true
    ∧ runTexts (examplesListElem s.examples) = s.examples
    ∧ elemBox (examplesListElem s.examples)
        = (MARGIN, examplesY + 0.3, Dim.abs (SLIDE_WIDTH - MARGIN * 2),
            some (examplesHeight - 0.3))
    ∧ (s.examples ≠ [] → examplesListElem s.examples ∈ (buildContentSlide s).elements) := by
  refine ⟨rfl, ?_, rfl, ?_, rfl, ?_, rfl, ?_⟩
  · have hco : TextRun.text ∘ bulletRun = id := funext fun b => rfl
    simp [runTexts, bulletsElem, hco]
  · simp [buildContentSlide]
  · have hco : TextRun.text ∘ exampleRun = id := funext fun e => rfl
    simp [runTexts, examplesListElem, hco]
  · intro h
    have hlen : 0 < s.examples.length := List.length_pos.mpr h
    simp [buildContentSlide, exampleBandElems, hlen]

/-- Witness for `shrink_to_fit_policy` at a slide whose bullet and example
are a 2000-character string. -/
theorem shrink_to_fit_policy_witness :
    (bulletsElem longSlide.bullets).shrinkText = true
    ∧ runTexts (bulletsElem longSlide.bullets) = longSlide.bullets
    ∧ examplesListElem longSlide.examples ∈ (buildContentSlide longSlide).elements := by
  have h := shrink_to_fit_policy longSlide
  exact ⟨h.1, h.2.1, h.2.2.2.2.2.2.2 (by simp [longSlide])⟩

/-- Claim C4 (examples omission): a slide built from a record with
`examples = []` contains zero elements in the examples band, while a
record with non-empty `examples` yields exactly the label element
followed by one numbered-list element. -/
theorem examples_band_omission (s : SlideWithImage) :
    (s.examples = [] →
        (buildContentSlide s).elements.filter isInExamplesBand = [])
    ∧ (s.examples ≠ [] →
        (buildContentSlide s).elements.filter isInExamplesBand
            = [examplesLabelElem, examplesListElem s.examples]
        ∧ isNumberedList (examplesListElem s.examples) = true) := by
  have hyTitle : ¬ (examplesY ≤ (0.3 : ℚ)) := by
    norm_num [examplesY, contentY, contentHeight]
  have hyContent : ¬ (examplesY ≤ contentY) := by
    norm_num [examplesY, contentY, contentHeight]
  have hyList : examplesY ≤ examplesY + 0.3 := by norm_num
  have hTitle : isInExamplesBand (slideTitleElem s.title) = false := by
    simp only [isInExamplesBand, slideTitleElem]
    exact decide_eq_false hyTitle
  have hBullets : isInExamplesBand (bulletsElem s.bullets) = false := by
    simp only [isInExamplesBand, bulletsElem]
    exact decide_eq_false hyContent
  have hImgCol : ∀ e ∈ imageColumnElems s.imageBase64, isInExamplesBand e = false := by
    cases s.imageBase64 with
    | none =>
        intro e he
        simp only [imageColumnElems, List.mem_cons, List.mem_singleton] at he
        rcases he with rfl | rfl | he
        · simp only [isInExamplesBand]
          exact decide_eq_false hyContent
        · simp only [isInExamplesBand]
          exact decide_eq_false hyContent
        · cases he
    | some d =>
        intro e he
        simp only [imageColumnElems, List.mem_singleton] at he
        subst he
        simp only [isInExamplesBand]
        exact decide_eq_false hyContent
  have hLabel : isInExamplesBand examplesLabelElem = true := by
    simp only [isInExamplesBand, examplesLabelElem]
    exact decide_eq_true (le_refl examplesY)
  have hList : isInExamplesBand (examplesListElem s.examples) = true := by
    simp only [isInExamplesBand, examplesListElem]
    exact decide_eq_true hyList
  constructor
  · intro h
    simp only [buildContentSlide, exampleBandElems, h, List.length_nil, gt_iff_lt,
      Nat.lt_irrefl, if_false, List.filter_cons, List.filter_append, hTitle, hBullets,
      Bool.false_eq_true, if_false, List.filter_nil, List.append_nil]
    simp [List.filter_eq_nil_iff]
    exact hImgCol
  · intro h
    have hlen : 0 < s.examples.length := List.length_pos.mpr h
    refine ⟨?_, ?_⟩
    · simp only [buildContentSlide, exampleBandElems, gt_iff_lt, hlen, if_true,
        List.filter_cons, List.filter_append, hTitle, hBullets, hLabel, hList,
        Bool.false_eq_true, if_false, if_true]
      simp [List.filter_eq_nil_iff]
      exact hImgCol
    · simp [isNumberedList, examplesListElem, exampleRun]

/-- Witness for `examples_band_omission`: the empty-examples slide has an
empty examples band, and the one-example slide has exactly the label and
the list. -/
theorem examples_band_omission_witness :
    (buildContentSlide noExamplesSlide).elements.filter isInExamplesBand = []
    ∧ (buildContentSlide sampleSlide).elements.filter isInExamplesBand
        = [examplesLabelElem, examplesListElem ["2+2=4"]] := by
  refine ⟨(examples_band_omission noExamplesSlide).1 rfl, ?_⟩
  have h := ((examples_band_omission sampleSlide).2 (by simp [sampleSlide, sampleSlideData])).1
  simpa [sampleSlide, sampleSlideData] using h

/-- Claim C5 (deck structure and order preservation): the built deck is
exactly one title slide followed by one content slide per slide record,
the content slide at position `i + 1` comes from the record at position
`i` (order preserved), and within a slide the bullet runs and example
runs carry the input texts in input order. -/
theorem deck_structure_order (title : String) (slides : List SlideWithImage) :
    (buildDeck title slides).slides.length = slides.length + 1
    ∧ (buildDeck title slides).slides.get? 0 = some (titleSlideOf title)
    ∧ (∀ i : Nat, (buildDeck title slides).slides.get? (i + 1)
        = (slides.get? i).map buildContentSlide)
    ∧ (∀ s : SlideWithImage, runTexts (bulletsElem s.bullets) = s.bullets
        ∧ runTexts (examplesListElem s.examples) = s.examples) := by
  refine ⟨by simp [buildDeck], rfl, ?_, ?_⟩
  · intro i
    simp [buildDeck]
  · intro s
    constructor
    · have hco : TextRun.text ∘ bulletRun = id := funext fun b => rfl
      simp [runTexts, bulletsElem, hco]
    · have hco : TextRun.text ∘ exampleRun = id := funext fun e => rfl
      simp [runTexts, examplesListElem, hco]

/-- Claim C6 (illustration-failure degradation): the fetch loop processes
every slide — the output has one record per input record and the record
at index `i` is computed from the input record at index `i` with the
outcome of the `i`-th fetch alone — a thrown fetch error (with or
without a successful fallback being available) and an image-less
response both yield `imageBase64 = none` rather than an error, a slide
whose fetch fails therefore degrades to the placeholder elements, and
`generateSlideImage` never propagates a transport error to assembly. -/
theorem illustration_failure_degradation
    (slides : List SlideData) (oracle : Nat → ApiOutcome × ApiOutcome) :
    (fetchImages slides oracle).length = slides.length
    ∧ (∀ i : Nat, (fetchImages slides oracle).get? i
        = (slides.get? i).map (fetchSlideImage oracle i))
    ∧ (∀ (status st2 : Nat) (msg msg2 : String),
        generateSlideImage (.err status msg) (.err st2 msg2) = none)
    ∧ (∀ fb : ApiOutcome, generateSlideImage (.ok []) fb = none)
    ∧ (∀ (m : String) (fb : ApiOutcome),
        generateSlideImage (.ok [.textPart m]) fb = none)
    ∧ (∀ (s : SlideData) (i st st2 : Nat) (msg msg2 : String),
        (fetchSlideImage (fun _ => (.err st msg, .err st2 msg2)) i s).imageBase64 = none)
    ∧ (imageColumnElems none).map elemKind = [ElemKindTag.shape, ElemKindTag.text] := by
  have herr : ∀ (status st2 : Nat) (msg msg2 : String),
      generateSlideImage (.err status msg) (.err st2 msg2) = none := by
    intro status st2 msg msg2
    cases hc : isPermissionFallbackError status msg <;>
      simp [generateSlideImage, hc]
  refine ⟨fetchImagesAux_length oracle 0 slides, ?_, herr, fun _ => rfl, fun _ _ => rfl, ?_, rfl⟩
  · intro i
    have h := fetchImagesAux_get? oracle 0 slides i
    simpa [fetchImages] using h
  · intro s i st st2 msg msg2
    unfold fetchSlideImage
    split
    · simp [herr]
    · rfl

/-- Claim C7 (slide-count validation): the inputs "0", "21" and "abc" are
rejected by the COUNT-step guard with the range message, on those inputs
the flow returns before the generation pipeline so no deck is ever
built, and every accepted count lies in the range 1–20 inclusive. -/
theorem count_validation (data : PresentationData)
    (oracle : Nat → ApiOutcome × ApiOutcome) :
    presentationCountStep "0" data oracle = none
    ∧ presentationCountStep "21" data oracle = none
    ∧ presentationCountStep "abc" data oracle = none
    ∧ handleCountInput "0" = .rejected rejectCountMessage
    ∧ handleCountInput "21" = .rejected rejectCountMessage
    ∧ handleCountInput "abc" = .rejected rejectCountMessage
    ∧ (∀ (input : String) (n : Int),
        handleCountInput input = .generate n → 1 ≤ n ∧ n ≤ 20) := by
  refine ⟨rfl, rfl, rfl, rfl, rfl, rfl, ?_⟩
  intro input n h
  unfold handleCountInput at h
  cases hp : jsParseInt input with
  | none => simp [hp] at h
  | some m =>
      simp only [hp] at h
      by_cases hc : m < 1 ∨ m > 20
      · rw [if_pos hc] at h
        cases h
      · rw [if_neg hc] at h
        cases h
        push_neg at hc
        omega

/-- Witness for `count_validation` at the accepted input "5". -/
theorem count_validation_witness :
    handleCountInput "5" = .generate 5 ∧ (1 ≤ (5 : Int) ∧ (5 : Int) ≤ 20) := by
  have h := count_validation { title := "t", slides := [] } (fun _ => (.err 0 "", .err 0 ""))
  exact ⟨rfl, h.2.2.2.2.2.2 "5" 5 rfl⟩

/-- Claim C8, counterexample: for the concrete slide with examples
`["2+2=4"]`, the examples band consists of the "أمثلة:" label element
and the numbered-list element, the label element is part of the built
slide, and its width is the text-column width `textWidth` (5.6), not the
full content width `SLIDE_WIDTH - MARGIN * 2` (9) the claim asserts for
both band elements. -/
theorem examples_width_counterexample :
    exampleBandElems ["2+2=4"] = [examplesLabelElem, examplesListElem ["2+2=4"]]
    ∧ examplesLabelElem ∈ (buildContentSlide sampleSlide).elements
    ∧ examplesLabelElem.w = Dim.abs textWidth
    ∧ examplesLabelElem.w ≠ Dim.abs (SLIDE_WIDTH - MARGIN * 2) := by
  have hne : textWidth ≠ SLIDE_WIDTH - MARGIN * 2 := by
    norm_num [textWidth, SLIDE_WIDTH, MARGIN, imageWidth]
  refine ⟨by simp [exampleBandElems], ?_, rfl, ?_⟩
  · simp [buildContentSlide, sampleSlide, sampleSlideData, exampleBandElems]
  · intro hcon
    have h2 : Dim.abs textWidth = Dim.abs (SLIDE_WIDTH - MARGIN * 2) := hcon
    exact hne (by injection h2)

/-- Claim C8 as amended: for every non-empty `examples` the band is the
label element followed by the numbered-list element; the list element is
width-constrained to the full content width (`SLIDE_WIDTH - MARGIN * 2`),
while the label element is width-constrained to the narrower text-column
width `textWidth` (`SLIDE_WIDTH - 2 * MARGIN - imageWidth - gap`). -/
theorem examples_band_widths (examples : List String) (h : examples ≠ []) :
    exampleBandElems examples = [examplesLabelElem, examplesListElem examples]
    ∧ examplesLabelElem.w = Dim.abs textWidth
    ∧ (examplesListElem examples).w = Dim.abs (SLIDE_WIDTH - MARGIN * 2)
    ∧ textWidth ≠ SLIDE_WIDTH - MARGIN * 2 := by
  have hlen : 0 < examples.length := List.length_pos.mpr h
  have hne : textWidth ≠ SLIDE_WIDTH - MARGIN * 2 := by
    norm_num [textWidth, SLIDE_WIDTH, MARGIN, imageWidth]
  exact ⟨by simp [exampleBandElems, hlen], rfl, rfl, hne⟩

/-- Witness for `examples_band_widths` at `examples = ["2+2=4"]`. -/
theorem examples_band_widths_witness :
    exampleBandElems ["2+2=4"] = [examplesLabelElem, examplesListElem ["2+2=4"]]
    ∧ examplesLabelElem.w = Dim.abs textWidth := by
  have h := examples_band_widths ["2+2=4"] (by simp)
  exact ⟨h.1, h.2.1⟩

/-- Claim C9 (lenient count parsing): "5.9" is accepted as 5 and "7abc"
as 7, and in general any input whose leading characters form a decimal
numeral (first digit non-zero) with value between 1 and 20, followed by
nothing or by a non-digit, is accepted with that value — `parseInt` stops
at the first non-digit rather than rejecting impure integer literals. -/
theorem lenient_count_parsing :
    handleCountInput "5.9" = .generate 5
    ∧ handleCountInput "7abc" = .generate 7
    ∧ (∀ (d t : List Char) (c : Char),
        d.head? = some c →
        ('1' ≤ c ∧ c ≤ '9') →
        (∀ x ∈ d, (digitValue? 10 x).isSome = true) →
        (∀ c2 : Char, t.head? = some c2 → (digitValue? 10 c2).isSome = false) →
        1 ≤ digitsVal 10 d →
        digitsVal 10 d ≤ 20 →
        handleCountInput (String.mk (d ++ t)) = .generate (digitsVal 10 d : Int)) := by
  refine ⟨by decide, by decide, ?_⟩
  intro d t c hhead hc hdig htail h1 h20
  cases d with
  | nil => cases hhead
  | cons c0 d2 =>
      have hc0 : c0 = c := by
        simp only [List.head?_cons, Option.some.injEq] at hhead
        exact hhead
      subst hc0
      have hnsp : (c0 == ' ') = false := by
        refine beq_eq_false_iff_ne.mpr ?_
        rintro rfl
        exact absurd hc (by decide)
      have hntab : (c0 == '\t') = false := by
        refine beq_eq_false_iff_ne.mpr ?_
        rintro rfl
        exact absurd hc (by decide)
      have hnnl : (c0 == '\n') = false := by
        refine beq_eq_false_iff_ne.mpr ?_
        rintro rfl
        exact absurd hc (by decide)
      have hncr : (c0 == '\r') = false := by
        refine beq_eq_false_iff_ne.mpr ?_
        rintro rfl
        exact absurd hc (by decide)
      have hnminus : (c0 == '-') = false := by
        refine beq_eq_false_iff_ne.mpr ?_
        rintro rfl
        exact absurd hc (by decide)
      have hnplus : (c0 == '+') = false := by
        refine beq_eq_false_iff_ne.mpr ?_
        rintro rfl
        exact absurd hc (by decide)
      have hnzero : (c0 == '0') = false := by
        refine beq_eq_false_iff_ne.mpr ?_
        rintro rfl
        exact absurd hc (by decide)
      have hws : isJsWhitespaceChar c0 = false := by
        simp [isJsWhitespaceChar, hnsp, hntab, hnnl, hncr]
      have htake : ((c0 :: d2) ++ t).takeWhile (fun x => (digitValue? 10 x).isSome) = c0 :: d2 :=
        takeWhile_append_left _ _ t hdig htail
      have hdigits : jsParseIntDigits 1 10 ((c0 :: d2) ++ t)
          = some ((digitsVal 10 (c0 :: d2) : Nat) : Int) := by
        simp only [jsParseIntDigits, htake]
        simp
      have hbase : jsParseIntBase 1 ((c0 :: d2) ++ t)
          = some ((digitsVal 10 (c0 :: d2) : Nat) : Int) := by
        cases hdt : d2 ++ t with
        | nil =>
            simp only [List.cons_append, hdt, jsParseIntBase]
            have h2 : (c0 :: d2) ++ t = [c0] := by simp [hdt]
            rw [← h2] at *
            simpa [List.cons_append, hdt] using hdigits
        | cons c1 r =>
            simp only [List.cons_append, hdt, jsParseIntBase, hnzero, Bool.false_and,
              Bool.false_eq_true, if_false]
            have h2 : (c0 :: d2) ++ t = c0 :: c1 :: r := by simp [hdt]
            rw [← h2]
            exact hdigits
      have hparse : jsParseInt (String.mk ((c0 :: d2) ++ t))
          = some ((digitsVal 10 (c0 :: d2) : Nat) : Int) := by
        simp only [jsParseInt, List.cons_append, List.dropWhile_cons, hws,
          Bool.false_eq_true, if_false, hnminus, hnplus]
        have h2 : c0 :: (d2 ++ t) = (c0 :: d2) ++ t := by simp
        rw [h2]
        exact hbase
      have hno : ¬((digitsVal 10 (c0 :: d2) : Int) < 1 ∨ (digitsVal 10 (c0 :: d2) : Int) > 20) := by
        push_neg
        exact ⟨by exact_mod_cast h1, by exact_mod_cast h20⟩
      unfold handleCountInput
      rw [hparse]
      simp [hno]
      omega

/-- Witness for `lenient_count_parsing`: the general statement applied to
the concrete split "7" ++ "abc". -/
theorem lenient_count_parsing_witness :
    handleCountInput "5.9" = .generate 5
    ∧ handleCountInput (String.mk (['7'] ++ ['a', 'b', 'c'])) = .generate (digitsVal 10 ['7'] : Int) := by
  have h := lenient_count_parsing
  refine ⟨h.1, ?_⟩
  refine h.2.2 ['7'] ['a', 'b', 'c'] '7' rfl (by decide) (by decide) ?_ (by decide) (by decide)
  intro c2 hc2
  simp only [List.head?_cons, Option.some.injEq] at hc2
  subst hc2
  decide

/-- Claim C10 (empty image description short-circuits): for a slide record
whose `imageDescription` is the empty string the fetch loop consults no
remote outcome at all — the result is the same for every oracle — the
record's `imageBase64` is `none`, and such a slide is assembled via the
placeholder elements (shape plus caption). -/
theorem empty_description_short_circuit
    (slides : List SlideData) (o1 o2 : Nat → ApiOutcome × ApiOutcome)
    (i : Nat) (s : SlideData)
    (hget : slides.get? i = some s) (hdesc : s.imageDescription = "") :
    (fetchImages slides o1).get? i = some { toSlideData := s, imageBase64 := none }
    ∧ fetchSlideImage o1 i s = fetchSlideImage o2 i s
    ∧ (imageColumnElems none).map elemKind = [ElemKindTag.shape, ElemKindTag.text] := by
  have hf : ∀ o : Nat → ApiOutcome × ApiOutcome,
      fetchSlideImage o i s = { toSlideData := s, imageBase64 := none } := by
    intro o
    unfold fetchSlideImage
    rw [if_neg]
    simp [hdesc]
  refine ⟨?_, by rw [hf o1, hf o2], rfl⟩
  have h := fetchImagesAux_get? o1 0 slides i
  simp only [Nat.zero_add] at h
  rw [fetchImages, h, hget]
  simp [hf o1]

/-- Witness for `empty_description_short_circuit` at a concrete slide
list and two distinct oracles. -/
theorem empty_description_short_circuit_witness :
    (fetchImages [sampleSlideData] (fun _ => (.ok [.inlineData "x"], .ok []))).get? 0
        = some { toSlideData := sampleSlideData, imageBase64 := none }
    ∧ fetchSlideImage (fun _ => (.ok [.inlineData "x"], .ok [])) 0 sampleSlideData
        = fetchSlideImage (fun _ => (.err 500 "boom", .err 500 "boom")) 0 sampleSlideData := by
  have h := empty_description_short_circuit [sampleSlideData]
    (fun _ => (.ok [.inlineData "x"], .ok []))
    (fun _ => (.err 500 "boom", .err 500 "boom"))
    0 sampleSlideData rfl rfl
  exact ⟨h.1, h.2.1⟩

end MathMind
